import Mathlib

set_option maxRecDepth 10000

/-!
Verification development for the bank-transaction email analyzer
(`src/main.py`).  The Python source is shallowly embedded: pure string
manipulation becomes Lean functions on `String`/`List Char`, Python floats
on the restricted decimal grammar appearing here become exact rationals,
`datetime` values become a plain record of calendar fields, and the remote
classifier's behaviour is an explicit environment value.  Fallible code
returns `Option`.
-/

/-! ## Python string primitives (restricted to what the source uses) -/

/-- Python `str.lower()` on the ASCII inputs used by the program. -/
def pyLower (s : String) : String := String.mk (s.data.map Char.toLower)

/-- Python `str.upper()` on the ASCII inputs used by the program. -/
def pyUpper (s : String) : String := String.mk (s.data.map Char.toUpper)

/-- Does `hay` start with `needle`? -/
def leadsWith : List Char → List Char → Bool
  | [], _ => true
  | _ :: _, [] => false
  | a :: as, b :: bs => a == b && leadsWith as bs

/-- Does `needle` occur as a contiguous segment of `hay`? -/
def segIn (needle : List Char) : List Char → Bool
  | [] => needle.isEmpty
  | c :: rest => leadsWith needle (c :: rest) || segIn needle rest

/-- Membership test used for Python's `needle in haystack` on strings. -/
def containsSubstr (hay needle : String) : Bool := segIn needle.data hay.data

/-- Characters accepted by Python's `\s` regex class / `str.strip()` (ASCII). -/
def isPySpace (c : Char) : Bool :=
  c == ' ' || c == '\t' || c == '\n' || c == '\r' || c == Char.ofNat 11 || c == Char.ofNat 12

/-- Python `str.strip()`: drop leading and trailing whitespace. -/
def pyStrip (s : String) : String :=
  String.mk (((s.data.dropWhile isPySpace).reverse.dropWhile isPySpace).reverse)

/-- Python `s.replace(",", "")`. -/
def stripCommas (s : String) : String := String.mk (s.data.filter (fun c => c != ','))

/-- Value of a digit string (most significant first). -/
def natOfDigits (l : List Char) : Nat := l.foldl (fun a c => a * 10 + (c.toNat - 48)) 0

/-- Exact value of a nonnegative decimal literal: `num / 10 ^ scale`.
Python's `float` is modelled by this exact representation; every decimal
the program compares or defaults to (`0.0`, regex amount captures) has its
sign and concrete value preserved, which is all the program observes. -/
structure DecValue where
  num : Nat
  scale : Nat
deriving DecidableEq

/-- The rational value of a `DecValue`. -/
def DecValue.toRat (v : DecValue) : ℚ := (v.num : ℚ) / (10 : ℚ) ^ v.scale

/-- The float literal `0.0`. -/
def decZero : DecValue := { num := 0, scale := 0 }

/-- Python `float(s)` on the decimal grammar reachable from the amount
captures (digits and at most one dot after comma removal); `none` models
the `ValueError` raised on inputs with no digit (e.g. `""` or `"."`). -/
def pyFloat (s : String) : Option DecValue :=
  let l := s.data
  let intPart := l.takeWhile Char.isDigit
  let rest := l.dropWhile Char.isDigit
  match rest with
  | [] => if intPart.isEmpty then none else some { num := natOfDigits intPart, scale := 0 }
  | '.' :: frac =>
      if frac.all Char.isDigit && !(intPart.isEmpty && frac.isEmpty) then
        some { num := natOfDigits (intPart ++ frac), scale := frac.length }
      else none
  | _ => none

/-! ## CATEGORIES (`src/main.py` lines 27-68) -/

/-- One category's entry: display color and subcategory-to-color mapping. -/
structure CategoryInfo where
  color : String
  subcategories : List (String × String)
deriving DecidableEq

/-- The fixed category taxonomy, exactly as declared in the source. -/
def CATEGORIES : List (String × CategoryInfo) :=
  [("Food & Dining",
     { color := "#FF6B6B",
       subcategories := [("Restaurants", "#FF4757"), ("Fast Food", "#FF3838"),
                         ("Groceries", "#FF6B6B")] }),
   ("Entertainment",
     { color := "#4ECDC4",
       subcategories := [("Netflix", "#E50914"), ("Amazon Prime", "#FF9900"),
                         ("Movies", "#4ECDC4")] }),
   ("Shopping",
     { color := "#45B7D1",
       subcategories := [("Clothing", "#45B7D1"), ("Electronics", "#3498DB"),
                         ("General", "#5DADE2")] }),
   ("Transportation",
     { color := "#FFA07A",
       subcategories := [("Fuel", "#FF7F50"), ("Public Transport", "#FFA07A"),
                         ("Taxi/Ride Share", "#FF8C69")] }),
   ("Bills & Utilities",
     { color := "#98D8C8",
       subcategories := [("Electricity", "#98D8C8"), ("Internet", "#7FCDCD"),
                         ("Phone", "#66CDAA")] })]

/-- A (category, subcategory) pair is valid when the category is a key of
`CATEGORIES` and the subcategory is one of that category's subcategory keys. -/
def isValidPair (p : String × String) : Bool :=
  CATEGORIES.any (fun e => e.1 == p.1 && e.2.subcategories.any (fun sc => sc.1 == p.2))

/-! ## Fallback categorization (`src/main.py` lines 246-275) -/

def foodKeywords : List String :=
  ["restaurant", "food", "cafe", "pizza", "burger", "swiggy", "zomato", "dominos", "mcd", "kfc"]

def deliveryKeywords : List String := ["swiggy", "zomato", "delivery"]

def shoppingKeywords : List String :=
  ["amazon", "flipkart", "myntra", "reliance", "retail", "store", "mall"]

def entertainmentKeywords : List String :=
  ["netflix", "prime", "hotstar", "cinema", "movie", "theatre"]

def transportKeywords : List String :=
  ["petrol", "fuel", "gas", "uber", "ola", "metro", "bus"]

def fuelKeywords : List String := ["petrol", "fuel", "gas"]

/-- Python `any(word in merchant_lower for word in ws)`. -/
def anyKw (ws : List String) (ml : String) : Bool := ws.any (fun w => containsSubstr ml w)

/-- `BankEmailAnalyzer.fallback_categorization`: keyword rules over the
lower-cased merchant, tried in the source's order. -/
def fallback_categorization (merchant : String) : String × String :=
  let ml := pyLower merchant
  if anyKw foodKeywords ml then
    if anyKw deliveryKeywords ml then ("Food & Dining", "Fast Food")
    else ("Food & Dining", "Restaurants")
  else if anyKw shoppingKeywords ml then ("Shopping", "General")
  else if anyKw entertainmentKeywords ml then
    if containsSubstr ml "netflix" then ("Entertainment", "Netflix")
    else if containsSubstr ml "prime" then ("Entertainment", "Amazon Prime")
    else ("Entertainment", "Movies")
  else if anyKw transportKeywords ml then
    if anyKw fuelKeywords ml then ("Transportation", "Fuel")
    else ("Transportation", "Taxi/Ride Share")
  else ("Shopping", "General")

/-! ## AI categorization (`src/main.py` lines 180-244)

The remote classifier is modelled by an explicit environment: whether the
submission POST raises, its status code, and the sequence of poll
outcomes observed by the (at most 10) GET requests of the polling loop. -/

/-- The classifier's `output` field: a string or a list of strings that the
source joins with `"".join(...)`. -/
inductive PyOutput where
  | str (s : String)
  | list (ss : List String)
deriving DecidableEq

/-- Python `"".join(output) if isinstance(output, list) else output`. -/
def joinOutput : PyOutput → String
  | .str s => s
  | .list ss => String.join ss

/-- Outcome of one poll GET: a transport exception, a non-200 status, or a
JSON body with a `status` field and an `output` field. -/
inductive PollResult where
  | err
  | notOk
  | ok (status : String) (output : PyOutput)
deriving DecidableEq

/-- Environment for one `categorize_transaction_ai` call. -/
structure AIEnv where
  postErr : Bool
  postStatus : Nat
  polls : List PollResult
deriving DecidableEq

/-- Python `output.strip().split("|", 1)` followed by stripping both halves
(the caller checks `"|" in output` first). -/
def splitPipe (s : String) : String × String :=
  let t := (pyStrip s).data
  (pyStrip (String.mk (t.takeWhile (fun c => c != '|'))),
   pyStrip (String.mk ((t.dropWhile (fun c => c != '|')).drop 1)))

/-- The polling loop body (`for _ in range(10)` in the source), run on the
successive poll outcomes.  `some pair` models `return category, subcategory`;
`none` models every path that falls through to the fallback: a GET exception
(caught by the outer `except`), `break` on a delimiter-free succeeded output,
or exhaustion of the outcomes. -/
def runPolls : List PollResult → Option (String × String)
  | [] => none
  | .err :: _ => none
  | .notOk :: rest => runPolls rest
  | .ok status out :: rest =>
      if status = "succeeded" then
        let o := joinOutput out
        if o.data.contains '|' then some (splitPipe o) else none
      else runPolls rest

/-- `BankEmailAnalyzer.categorize_transaction_ai`.  `token` is
`self.replicate_token` (`""` when the secret is absent); the prompt built
from `merchant`/`amount` only feeds the remote service, whose behaviour is
`env`. -/
def categorize_transaction_ai (token merchant : String) (amount : DecValue) (env : AIEnv) :
    String × String :=
  if token = "" then fallback_categorization merchant
  else if env.postErr then fallback_categorization merchant
  else if env.postStatus = 201 then
    match runPolls (env.polls.take 10) with
    | some pr => pr
    | none => fallback_categorization merchant
  else fallback_categorization merchant

/-! ## Regex engine

The twelve extraction patterns of `BANK_PATTERNS` use only: case-insensitive
literals (`re.IGNORECASE`), `\s*`, `\s+`, an optional literal char (`\.?`),
character classes with `+`, `*` or `{n}`, negated classes (`[^\n\r]`,
`[^\s]`), and a single capturing group that ends the pattern.  The engine
below implements Python `re.search` for exactly this fragment: candidates
are enumerated in Python's backtracking order (greedy quantifiers longest
first, earlier quantifiers varying outermost, leftmost start position
first), and the capture of the first successful alternative is returned. -/

/-- One regex token of the fragment. -/
inductive RTok where
  | lit (cs : List Char)
  | litChar (c : Char)
  | optChar (c : Char)
  | wsStar
  | wsPlus
  | clsPlus (neg : Bool) (cs : List Char)
  | clsStar (neg : Bool) (cs : List Char)
  | clsRep (cs : List Char) (n : Nat)

/-- A pattern: tokens before the capturing group, then the group's tokens.
Every pattern in the source ends with its single capturing group. -/
structure Pattern where
  toks : List RTok
  grp : List RTok

/-- Case-insensitive "input starts with cs" (models `re.IGNORECASE`). -/
def caseLeadsWith : List Char → List Char → Bool
  | [], _ => true
  | _ :: _, [] => false
  | a :: as, b :: bs => a.toLower == b.toLower && caseLeadsWith as bs

/-- Length of the maximal run of whitespace at the head of the input. -/
def wsRunLen : List Char → Nat
  | [] => 0
  | c :: rest => if isPySpace c then wsRunLen rest + 1 else 0

/-- Class membership: `c` in `[cs]`, or in `[^cs]` when `neg` is true. -/
def clsMem (neg : Bool) (cs : List Char) (c : Char) : Bool :=
  if neg then !(cs.contains c) else cs.contains c

/-- Length of the maximal run of class members at the head of the input. -/
def clsRunLen (neg : Bool) (cs : List Char) : List Char → Nat
  | [] => 0
  | c :: rest => if clsMem neg cs c then clsRunLen neg cs rest + 1 else 0

/-- Remainders after one token consumes a prefix of the input, listed in
the order Python's backtracking engine tries them (greedy: longest first). -/
def tokCands : RTok → List Char → List (List Char)
  | .lit cs, input => if caseLeadsWith cs input then [input.drop cs.length] else []
  | .litChar c, input =>
      match input with
      | d :: rest => if d.toLower == c.toLower then [rest] else []
      | [] => []
  | .optChar c, input =>
      match input with
      | d :: rest => if d.toLower == c.toLower then [rest, d :: rest] else [d :: rest]
      | [] => [[]]
  | .wsStar, input =>
      let k := wsRunLen input
      (List.range (k + 1)).map (fun i => input.drop (k - i))
  | .wsPlus, input =>
      let k := wsRunLen input
      (List.range k).map (fun i => input.drop (k - i))
  | .clsPlus neg cs, input =>
      let k := clsRunLen neg cs input
      (List.range k).map (fun i => input.drop (k - i))
  | .clsStar neg cs, input =>
      let k := clsRunLen neg cs input
      (List.range (k + 1)).map (fun i => input.drop (k - i))
  | .clsRep cs n, input =>
      if (input.take n).length == n && (input.take n).all (fun c => cs.contains c) then
        [input.drop n]
      else []

/-- Remainders after a token sequence, in backtracking order. -/
def toksCands : List RTok → List Char → List (List Char)
  | [], input => [input]
  | t :: ts, input => (tokCands t input).flatMap (fun rest => toksCands ts rest)

/-- Match the pattern anchored at the start of `input`; on success return
the text captured by the group (Python's `match.group(1)`): the first
surviving alternative of the part before the group, combined with the
group's own first (greediest) alternative. -/
def matchAt (p : Pattern) (input : List Char) : Option (List Char) :=
  (toksCands p.toks input).findSome? (fun rest =>
    match toksCands p.grp rest with
    | [] => none
    | r :: _ => some (rest.take (rest.length - r.length)))

/-- Python `re.search`: try successive start positions, leftmost first. -/
def reSearch (p : Pattern) : List Char → Option (List Char)
  | [] => matchAt p []
  | c :: rest =>
      match matchAt p (c :: rest) with
      | some cap => some cap
      | none => reSearch p rest

/-- `re.search(pattern, content, re.IGNORECASE)` returning `group(1)`. -/
def reSearchStr (p : Pattern) (s : String) : Option String :=
  (reSearch p s.data).map String.mk

/-! ## BANK_PATTERNS (`src/main.py` lines 71-93) -/

def digitChars : List Char := ['0', '1', '2', '3', '4', '5', '6', '7', '8', '9']

def digitComma : List Char := digitChars ++ [',']

def nlChars : List Char := ['\n', '\r']

def pyWhiteChars : List Char := [' ', '\t', '\n', '\r', Char.ofNat 11, Char.ofNat 12]

/-- One bank's entry: sender address(es) and the four extraction patterns.
The source stores the sender as a string for sbi/hdfc and a list for icici;
both are modelled as a list. -/
structure BankProfile where
  sender : List String
  amount_pattern : Pattern
  merchant_pattern : Pattern
  date_pattern : Pattern
  card_pattern : Pattern

/-- The capture group shared by all three amount patterns:
`([0-9,]+\.?[0-9]*)`. -/
def amountGrp : List RTok :=
  [.clsPlus false digitComma, .optChar '.', .clsStar false digitChars]

/-- The date capture group of hdfc and icici:
`([0-9]{2}-[0-9]{2}-[0-9]{4})`. -/
def ddmmyyyyGrp : List RTok :=
  [.clsRep digitChars 2, .litChar '-', .clsRep digitChars 2, .litChar '-',
   .clsRep digitChars 4]

def sbiProfile : BankProfile :=
  { sender := ["donotreply.sbiatm@alerts.sbi.co.in"],
    amount_pattern := { toks := [.lit "Amount (INR)".data, .wsStar], grp := amountGrp },
    merchant_pattern :=
      { toks := [.lit "Terminal Owner Name".data, .wsStar], grp := [.clsPlus true nlChars] },
    date_pattern :=
      { toks := [.lit "Date & Time".data, .wsStar], grp := [.clsPlus true nlChars] },
    card_pattern :=
      { toks := [.lit "Last 4 Digit of Card".data, .wsStar], grp := [.clsPlus true nlChars] } }

def hdfcProfile : BankProfile :=
  { sender := ["alerts@hdfcbank.net"],
    amount_pattern :=
      { toks := [.lit "Rs".data, .optChar '.', .wsStar], grp := amountGrp },
    merchant_pattern :=
      { toks := [.lit "at".data, .wsPlus], grp := [.clsPlus true pyWhiteChars] },
    date_pattern := { toks := [.lit "on".data, .wsPlus], grp := ddmmyyyyGrp },
    card_pattern :=
      { toks := [.lit "card".data, .wsPlus, .lit "ending".data, .wsPlus],
        grp := [.clsRep digitChars 4] } }

def iciciProfile : BankProfile :=
  { sender := ["alert@icicibank.com", "credit_cards@icicibank.com"],
    amount_pattern := { toks := [.lit "INR".data, .wsStar], grp := amountGrp },
    merchant_pattern :=
      { toks := [.lit "at".data, .wsPlus], grp := [.clsPlus true nlChars] },
    date_pattern := { toks := [.lit "on".data, .wsPlus], grp := ddmmyyyyGrp },
    card_pattern :=
      { toks := [.lit "Card".data, .wsPlus, .lit "ending".data, .wsPlus],
        grp := [.clsRep digitChars 4] } }

/-- The bank pattern registry, in declaration order. -/
def BANK_PATTERNS : List (String × BankProfile) :=
  [("sbi", sbiProfile), ("hdfc", hdfcProfile), ("icici", iciciProfile)]

/-- `BANK_PATTERNS.get(bank, {})` — `none` models the empty dict returned
for a bank key with no registry entry. -/
def bankPatternsGet (k : String) : Option BankProfile :=
  (BANK_PATTERNS.find? (fun e => e.1 == k)).map (fun e => e.2)

/-! ## identify_bank (`src/main.py` lines 137-156) -/

/-- `BankEmailAnalyzer.identify_bank`: chained case-insensitive substring
tests on the sender, in the source's order. -/
def identify_bank (sender : String) : Option String :=
  let sl := pyLower sender
  if containsSubstr sl "sbi" then some "sbi"
  else if containsSubstr sl "hdfc" then some "hdfc"
  else if containsSubstr sl "icici" then some "icici"
  else if containsSubstr sl "axis" then some "axis"
  else if containsSubstr sl "kotak" then some "kotak"
  else if containsSubstr sl "idfc" then some "idfc"
  else if containsSubstr sl "yes" then some "yes"
  else if containsSubstr sl "indus" then some "indus"
  else none

/-! ## parse_date (`src/main.py` lines 158-178)

`datetime.strptime` is embedded for the five formats the source tries.
Python's `_strptime` turns a format into an anchored regex: numeric
directives are alternations that prefer two digits over one (`%d` accepts
1-31, `%m` 1-12, `%H` 0-23, `%M` 0-59, `%Y` exactly four digits), `%b` is a
case-insensitive month abbreviation, a whitespace run in the format becomes
`\s+`, and the first backtracking match must consume the whole string.  The
`datetime` constructor then validates the day against the month length
(raising `ValueError`, i.e. `none`, out of range). -/

/-- A `datetime` value as far as the program observes it. -/
structure PyDateTime where
  year : Nat
  month : Nat
  day : Nat
  hour : Nat
  minute : Nat
deriving DecidableEq

/-- One strptime format directive. -/
inductive FDir where
  | db
  | dd
  | dm
  | dY
  | dH
  | dM
  | lit (c : Char)
  | ws

/-- Accumulated fields during one strptime run (Python defaults: 1900-01-01
00:00 for directives a format does not set). -/
structure TParts where
  y : Nat
  m : Nat
  d : Nat
  hh : Nat
  mm : Nat
deriving DecidableEq

def initialTParts : TParts := { y := 1900, m := 1, d := 1, hh := 0, mm := 0 }

def digitVal (c : Char) : Nat := c.toNat - 48

def twoDigits : List Char → Option (Nat × List Char)
  | a :: b :: rest =>
      if a.isDigit && b.isDigit then some (digitVal a * 10 + digitVal b, rest) else none
  | _ => none

def oneDigit : List Char → Option (Nat × List Char)
  | a :: rest => if a.isDigit then some (digitVal a, rest) else none
  | _ => none

def monthAbbrevs : List (String × Nat) :=
  [("jan", 1), ("feb", 2), ("mar", 3), ("apr", 4), ("may", 5), ("jun", 6),
   ("jul", 7), ("aug", 8), ("sep", 9), ("oct", 10), ("nov", 11), ("dec", 12)]

/-- Candidates for `%b`: a case-insensitive three-letter month abbreviation. -/
def parseMonthName (input : List Char) : List (Nat × List Char) :=
  match input with
  | a :: b :: c :: rest =>
      match monthAbbrevs.find? (fun e => e.1.data == [a.toLower, b.toLower, c.toLower]) with
      | some e => [(e.2, rest)]
      | none => []
  | _ => []

/-- Candidates (value, remainder) for one directive, in the order Python's
regex alternation tries them: two-digit readings before one-digit. -/
def fdirCands : FDir → List Char → List (Nat × List Char)
  | .db, input => parseMonthName input
  | .dd, input =>
      (match twoDigits input with
       | some (v, rest) => if 1 ≤ v ∧ v ≤ 31 then [(v, rest)] else []
       | none => []) ++
      (match oneDigit input with
       | some (v, rest) => if 1 ≤ v then [(v, rest)] else []
       | none => [])
  | .dm, input =>
      (match twoDigits input with
       | some (v, rest) => if 1 ≤ v ∧ v ≤ 12 then [(v, rest)] else []
       | none => []) ++
      (match oneDigit input with
       | some (v, rest) => if 1 ≤ v then [(v, rest)] else []
       | none => [])
  | .dH, input =>
      (match twoDigits input with
       | some (v, rest) => if v ≤ 23 then [(v, rest)] else []
       | none => []) ++
      (match oneDigit input with
       | some (v, rest) => [(v, rest)]
       | none => [])
  | .dM, input =>
      (match twoDigits input with
       | some (v, rest) => if v ≤ 59 then [(v, rest)] else []
       | none => []) ++
      (match oneDigit input with
       | some (v, rest) => [(v, rest)]
       | none => [])
  | .dY, input =>
      match input with
      | a :: b :: c :: d :: rest =>
          if a.isDigit && b.isDigit && c.isDigit && d.isDigit then
            [(natOfDigits [a, b, c, d], rest)]
          else []
      | _ => []
  | .lit ch, input =>
      match input with
      | c :: rest => if c == ch then [(0, rest)] else []
      | [] => []
  | .ws, input =>
      let k := wsRunLen input
      (List.range k).map (fun i => (0, input.drop (k - i)))

def applyDir : FDir → Nat → TParts → TParts
  | .db, v, p => { p with m := v }
  | .dd, v, p => { p with d := v }
  | .dm, v, p => { p with m := v }
  | .dY, v, p => { p with y := v }
  | .dH, v, p => { p with hh := v }
  | .dM, v, p => { p with mm := v }
  | .lit _, _, p => p
  | .ws, _, p => p

/-- All backtracking parses of a format against the input, in the order the
regex engine produces them. -/
def runFmt : List FDir → TParts → List Char → List (TParts × List Char)
  | [], p, input => [(p, input)]
  | dir :: ds, p, input =>
      (fdirCands dir input).flatMap (fun vr => runFmt ds (applyDir dir vr.1 p) vr.2)

def isLeap (y : Nat) : Bool := y % 4 == 0 && (y % 100 != 0 || y % 400 == 0)

def daysInMonth (y m : Nat) : Nat :=
  if m = 2 then (if isLeap y then 29 else 28)
  else if [4, 6, 9, 11].contains m then 30 else 31

/-- The `datetime(...)` constructor's validation (`MINYEAR ≤ year` and the
day fits the month; the regexes already bound the other fields). -/
def validateParts (p : TParts) : Option PyDateTime :=
  if 1 ≤ p.y ∧ p.d ≤ daysInMonth p.y p.m then
    some { year := p.y, month := p.m, day := p.d, hour := p.hh, minute := p.mm }
  else none

/-- `datetime.strptime(s, f)`: take the regex engine's first match, require
it to consume the whole string, then validate. -/
def strptimeF (f : List FDir) (s : String) : Option PyDateTime :=
  match runFmt f initialTParts s.data with
  | [] => none
  | (p, rest) :: _ => if rest.isEmpty then validateParts p else none

/-- Format `'%b %d, %Y, %H:%M'`. -/
def fmtMonD : List FDir := [.db, .ws, .dd, .lit ',', .ws, .dY, .lit ',', .ws, .dH, .lit ':', .dM]

/-- Format `'%d-%m-%Y'`. -/
def fmtDMY : List FDir := [.dd, .lit '-', .dm, .lit '-', .dY]

/-- Format `'%Y-%m-%d'`. -/
def fmtYMD : List FDir := [.dY, .lit '-', .dm, .lit '-', .dd]

/-- Format `'%d/%m/%Y'`. -/
def fmtDMYslash : List FDir := [.dd, .lit '/', .dm, .lit '/', .dY]

/-- Format `'%m/%d/%Y'`. -/
def fmtMDYslash : List FDir := [.dm, .lit '/', .dd, .lit '/', .dY]

/-- The `formats` list of `parse_date`, in source order. -/
def formats : List (List FDir) := [fmtMonD, fmtDMY, fmtYMD, fmtDMYslash, fmtMDYslash]

/-- The `for fmt in formats` loop: first successful parse wins. -/
def tryFormats : List (List FDir) → String → Option PyDateTime
  | [], _ => none
  | f :: fs, s =>
      match strptimeF f s with
      | some d => some d
      | none => tryFormats fs s

/-- `BankEmailAnalyzer.parse_date`: first successful format, else
`datetime.now()` — the caller supplies the clock reading `now`. -/
def parse_date (now : PyDateTime) (s : String) : PyDateTime :=
  (tryFormats formats s).getD now

/-! ## parse_transaction_email (`src/main.py` lines 99-135) -/

/-- The record built by `parse_transaction_email`. -/
structure RawTransaction where
  amount : DecValue
  merchant : String
  date : PyDateTime
  card_last4 : String
  bank : String
  raw_email : String
deriving DecidableEq

/-- The amount line:
`float(amount_match.group(1).replace(',', '')) if amount_match else 0.0`.
`some` is the value bound to `amount`; `none` models the `ValueError`
raised by `float` when the capture holds no digit, which escapes to the
function's `except` clause. -/
def extractAmount (p : BankProfile) (content : String) : Option DecValue :=
  match reSearchStr p.amount_pattern content with
  | none => some decZero
  | some cap => pyFloat (stripCommas cap)

/-- `merchant_match.group(1).strip() if merchant_match else "Unknown"`. -/
def extractMerchant (p : BankProfile) (content : String) : String :=
  match reSearchStr p.merchant_pattern content with
  | some cap => pyStrip cap
  | none => "Unknown"

/-- `date_match.group(1).strip() if date_match else ""`. -/
def extractDateStr (p : BankProfile) (content : String) : String :=
  match reSearchStr p.date_pattern content with
  | some cap => pyStrip cap
  | none => ""

/-- `card_match.group(1).strip() if card_match else ""`. -/
def extractCard (p : BankProfile) (content : String) : String :=
  match reSearchStr p.card_pattern content with
  | some cap => pyStrip cap
  | none => ""

/-- `BankEmailAnalyzer.parse_transaction_email`.  The three `none` paths
are: unrecognized sender (`if not bank: return None`); a bank key with no
`BANK_PATTERNS` entry, where `patterns.get('amount_pattern', '')` yields the
empty pattern and `amount_match.group(1)` raises `IndexError`, caught by the
`except` clause; and a `ValueError` from `float`, caught likewise. -/
def parse_transaction_email (now : PyDateTime) (email_content sender : String) :
    Option RawTransaction :=
  match identify_bank sender with
  | none => none
  | some bank =>
    match bankPatternsGet bank with
    | none => none
    | some p =>
      match extractAmount p email_content with
      | none => none
      | some amount =>
          some { amount := amount,
                 merchant := extractMerchant p email_content,
                 date := parse_date now (extractDateStr p email_content),
                 card_last4 := extractCard p email_content,
                 bank := pyUpper bank,
                 raw_email := email_content }

/-! ## The assembly loop of `main` (`src/main.py` lines 453-465) -/

/-- A `RawTransaction` with the category fields attached. -/
structure Transaction extends RawTransaction where
  category : String
  subcategory : String
deriving DecidableEq

/-- The `for email in emails` loop of `main`: parse each (body, sender)
pair, keep only parsed records with positive amount, categorize those
(each call observing its own classifier environment), and append. -/
def processEmails (token : String) (now : PyDateTime) :
    List ((String × String) × AIEnv) → List Transaction
  | [] => []
  | ((body, sender), env) :: rest =>
      match parse_transaction_email now body sender with
      | some t =>
          if 0 < t.amount.num then
            let cs := categorize_transaction_ai token t.merchant t.amount env
            { toRawTransaction := t, category := cs.1, subcategory := cs.2 } ::
              processEmails token now rest
          else processEmails token now rest
      | none => processEmails token now rest

/-! ## sample_email (`src/main.py` lines 617-633) -/

/-- The sample SBI transaction email displayed by the app, byte for byte
(a triple-quoted string whose lines are indented by eight spaces). -/
def sample_email : String :=
  "\n        **Dear Valued SBI Debit Card Holder,**\n        \n        The below transaction has been done using your SBI debit card.\n        \n        Description | Value\n        Terminal Owner Name | RELIANCE RETAIL LTD\n        Terminal Id | 89051784\n        Date & Time | Jun 21, 2025, 16:10\n        Transaction Number | 517210057033\n        Amount (INR) | 349.00\n        Last 4 Digit of Card | X3093\n        Transaction Type | PURCHASE\n        Channel | POS / ECOM\n        City | 01204770770\n        Location | RELIANCE RETAIL LTD\n        "

/-! ## Helper lemmas -/

lemma anyKw_eq_true {ws : List String} {ml : String}
    (h : ∃ w ∈ ws, containsSubstr ml w = true) : anyKw ws ml = true :=
  List.any_eq_true.2 h

lemma anyKw_eq_false {ws : List String} {ml : String}
    (h : ∀ w ∈ ws, containsSubstr ml w = false) : anyKw ws ml = false :=
  List.any_eq_false.2 (fun w hw => by rw [h w hw]; exact Bool.false_ne_true)

lemma fallback_valid (m : String) : isValidPair (fallback_categorization m) = true := by
  simp only [fallback_categorization]
  split_ifs <;> decide

lemma runPolls_none_of_no_success {l : List PollResult}
    (h : ∀ st out, PollResult.ok st out ∈ l → st ≠ "succeeded") : runPolls l = none := by
  induction l with
  | nil => rfl
  | cons q rest ih =>
      cases q with
      | err => rfl
      | notOk => exact ih (fun st out hm => h st out (List.mem_cons_of_mem _ hm))
      | ok st out =>
          have hne : st ≠ "succeeded" := h st out (List.mem_cons_self _ _)
          simpa [runPolls, hne] using
            ih (fun st' out' hm => h st' out' (List.mem_cons_of_mem _ hm))

lemma DecValue.toRat_pos {v : DecValue} (h : 0 < v.num) : 0 < v.toRat := by
  have hn : (0 : ℚ) < (v.num : ℚ) := by exact_mod_cast h
  unfold DecValue.toRat
  positivity

/-- A fixed concrete clock reading used by the closed evaluation theorems. -/
def demoNow : PyDateTime := { year := 2025, month := 6, day := 21, hour := 12, minute := 0 }

/-! ## Claim theorems -/

/-- C1: the specification expects the Email Parser, on the app's own sample
SBI email, to yield amount 349.00, merchant "RELIANCE RETAIL LTD" and
card_last4 "X3093".  The code diverges: the extraction regexes expect the
value to follow its label directly, but the sample's lines read
`Label | Value`, so the amount pattern finds no match (amount defaults to
0.0) and the merchant/card captures keep the leading "| ".  This theorem
evaluates the parser at the sample, exhibiting the divergence; the
fallback categorization clauses show `("Shopping", "General")` for both the
claimed and actually-extracted merchant, the one part of the claim the code
meets. -/
theorem C1_sample_email_parse :
    parse_transaction_email demoNow sample_email "donotreply.sbiatm@alerts.sbi.co.in" =
      some { amount := decZero, merchant := "| RELIANCE RETAIL LTD", date := demoNow,
             card_last4 := "| X3093", bank := "SBI", raw_email := sample_email }
    ∧ fallback_categorization "| RELIANCE RETAIL LTD" = ("Shopping", "General")
    ∧ fallback_categorization "RELIANCE RETAIL LTD" = ("Shopping", "General") := by
  exact ⟨by decide, by decide, by decide⟩

/-- C2 counterexample: a succeeded classifier response `"Garbage|Junk"` is
returned verbatim by `categorize_transaction_ai` and is not a valid
CategoryTaxonomy pair, so the claimed invariant fails for some classifier
response. -/
theorem C2_counterexample :
    categorize_transaction_ai "token" "STORE" decZero
      { postErr := false, postStatus := 201,
        polls := [.ok "succeeded" (.str "Garbage|Junk")] } = ("Garbage", "Junk")
    ∧ isValidPair ("Garbage", "Junk") = false := by
  exact ⟨by decide, by decide⟩

/-- C2 amended: for every merchant, amount and classifier behaviour, the
pair returned by `categorize_transaction_ai` is either a valid
CategoryTaxonomy pair or the verbatim trimmed pair parsed from a succeeded
delimiter-bearing classifier response (which the code does not validate);
and every fallback result is a valid pair. -/
theorem C2_amended_validity :
    (∀ token m a env, isValidPair (categorize_transaction_ai token m a env) = true
       ∨ runPolls (env.polls.take 10) = some (categorize_transaction_ai token m a env))
    ∧ (∀ m, isValidPair (fallback_categorization m) = true) := by
  refine ⟨?_, fallback_valid⟩
  intro token m a env
  unfold categorize_transaction_ai
  split
  · exact Or.inl (fallback_valid m)
  · split
    · exact Or.inl (fallback_valid m)
    · split
      · cases h : runPolls (env.polls.take 10) with
        | some pr => exact Or.inr rfl
        | none => exact Or.inl (fallback_valid m)
      · exact Or.inl (fallback_valid m)

/-- C3 counterexample: under the SBI patterns the amount regex matches the
body `"Amount (INR) ,"` with capture `","`; `float` then raises on the
comma-stripped empty string and the `except` clause drops the whole record
(`None`) — the amount does not default to 0.0 on a numeric-parse failure,
and the other fields are never extracted. -/
theorem C3_counterexample :
    reSearchStr sbiProfile.amount_pattern "Amount (INR) ," = some ","
    ∧ parse_transaction_email demoNow "Amount (INR) ," "donotreply.sbiatm@alerts.sbi.co.in"
        = none := by
  exact ⟨by decide, by decide⟩

/-- C3 amended: for every bank with a pattern entry and every body whose
amount extraction does not raise (the regex either finds no match — amount
0.0 — or its capture parses numerically), the parser returns a record whose
four fields are each computed independently with their documented defaults;
only a numeric-parse failure of a matched amount capture aborts the
record. -/
theorem C3_amended_field_independence (bank : String) (p : BankProfile)
    (hb : bankPatternsGet bank = some p) (now : PyDateTime) (content sender : String)
    (hid : identify_bank sender = some bank) (q : DecValue)
    (hq : extractAmount p content = some q) :
    parse_transaction_email now content sender =
      some { amount := q, merchant := extractMerchant p content,
             date := parse_date now (extractDateStr p content),
             card_last4 := extractCard p content, bank := pyUpper bank,
             raw_email := content } := by
  simp only [parse_transaction_email, hid, hb, hq]

/-- C3 amended, witness: a concrete SBI body whose amount pattern finds no
match (amount 0.0) while the merchant is still extracted. -/
theorem C3_witness :
    parse_transaction_email demoNow "Terminal Owner Name REL"
        "donotreply.sbiatm@alerts.sbi.co.in" =
      some { amount := decZero, merchant := extractMerchant sbiProfile "Terminal Owner Name REL",
             date := parse_date demoNow (extractDateStr sbiProfile "Terminal Owner Name REL"),
             card_last4 := extractCard sbiProfile "Terminal Owner Name REL", bank := pyUpper "sbi",
             raw_email := "Terminal Owner Name REL" } :=
  C3_amended_field_independence "sbi" sbiProfile rfl demoNow
    "Terminal Owner Name REL" "donotreply.sbiatm@alerts.sbi.co.in" (by decide) decZero (by decide)

/-- C5: fallback subcategory narrowing inside Food & Dining — "SWIGGY"
carries a delivery-service keyword and maps to Fast Food, "TAJ RESTAURANT"
maps to Restaurants. -/
theorem C5_subcategory_narrowing :
    fallback_categorization "SWIGGY" = ("Food & Dining", "Fast Food")
    ∧ fallback_categorization "TAJ RESTAURANT" = ("Food & Dining", "Restaurants") := by
  exact ⟨by decide, by decide⟩

/-- C4: the fallback tests the lower-cased merchant against the keyword
sets in the fixed priority order Food & Dining, Shopping, Entertainment,
Transportation, with default `("Shopping", "General")`; a merchant matching
an earlier set resolves there regardless of later matches, so one matching
both a food and a shopping keyword resolves to Food & Dining. -/
theorem C4_priority_order (m : String) :
    ((∃ w ∈ foodKeywords, containsSubstr (pyLower m) w = true) →
        (fallback_categorization m).1 = "Food & Dining")
    ∧ ((∀ w ∈ foodKeywords, containsSubstr (pyLower m) w = false) →
       (∃ w ∈ shoppingKeywords, containsSubstr (pyLower m) w = true) →
        fallback_categorization m = ("Shopping", "General"))
    ∧ ((∀ w ∈ foodKeywords, containsSubstr (pyLower m) w = false) →
       (∀ w ∈ shoppingKeywords, containsSubstr (pyLower m) w = false) →
       (∃ w ∈ entertainmentKeywords, containsSubstr (pyLower m) w = true) →
        (fallback_categorization m).1 = "Entertainment")
    ∧ ((∀ w ∈ foodKeywords, containsSubstr (pyLower m) w = false) →
       (∀ w ∈ shoppingKeywords, containsSubstr (pyLower m) w = false) →
       (∀ w ∈ entertainmentKeywords, containsSubstr (pyLower m) w = false) →
       (∃ w ∈ transportKeywords, containsSubstr (pyLower m) w = true) →
        (fallback_categorization m).1 = "Transportation")
    ∧ ((∀ w ∈ foodKeywords, containsSubstr (pyLower m) w = false) →
       (∀ w ∈ shoppingKeywords, containsSubstr (pyLower m) w = false) →
       (∀ w ∈ entertainmentKeywords, containsSubstr (pyLower m) w = false) →
       (∀ w ∈ transportKeywords, containsSubstr (pyLower m) w = false) →
        fallback_categorization m = ("Shopping", "General")) := by
  refine ⟨?_, ?_, ?_, ?_, ?_⟩
  · intro hf
    have h1 := anyKw_eq_true hf
    simp only [fallback_categorization, h1, if_true]
    split_ifs <;> rfl
  · intro hf hs
    have h1 := anyKw_eq_false hf
    have h2 := anyKw_eq_true hs
    simp [fallback_categorization, h1, h2]
  · intro hf hs he
    have h1 := anyKw_eq_false hf
    have h2 := anyKw_eq_false hs
    have h3 := anyKw_eq_true he
    simp [fallback_categorization, h1, h2, h3]
    try split_ifs <;> rfl
  · intro hf hs he ht
    have h1 := anyKw_eq_false hf
    have h2 := anyKw_eq_false hs
    have h3 := anyKw_eq_false he
    have h4 := anyKw_eq_true ht
    simp [fallback_categorization, h1, h2, h3, h4]
    try split_ifs <;> rfl
  · intro hf hs he ht
    have h1 := anyKw_eq_false hf
    have h2 := anyKw_eq_false hs
    have h3 := anyKw_eq_false he
    have h4 := anyKw_eq_false ht
    simp [fallback_categorization, h1, h2, h3, h4]

/-- C4 witness: "AMAZON FRESH RESTAURANT" contains both a food keyword
("restaurant") and a shopping keyword ("amazon") and resolves to
Food & Dining; "AMAZON MALL" contains only shopping keywords and resolves
to `("Shopping", "General")`. -/
theorem C4_witness :
    (fallback_categorization "AMAZON FRESH RESTAURANT").1 = "Food & Dining"
    ∧ fallback_categorization "AMAZON MALL" = ("Shopping", "General") :=
  ⟨(C4_priority_order "AMAZON FRESH RESTAURANT").1 ⟨"restaurant", by decide, by decide⟩,
   (C4_priority_order "AMAZON MALL").2.1 (by decide) ⟨"amazon", by decide, by decide⟩⟩

/-- C6: every listed AI-path failure mode — missing credential, POST
transport exception, submission status other than 201, a succeeded response
with no `|` delimiter (including the empty output), no poll ever reporting
success (covering the `failed` status and exhaustion of the 10-poll
ceiling), and a poll GET transport exception — makes
`categorize_transaction_ai` return exactly `fallback_categorization` of the
merchant. -/
theorem C6_ai_failure_fallback :
    (∀ m a env, categorize_transaction_ai "" m a env = fallback_categorization m)
    ∧ (∀ token m a env, token ≠ "" → env.postErr = true →
        categorize_transaction_ai token m a env = fallback_categorization m)
    ∧ (∀ token m a env, token ≠ "" → env.postErr = false → env.postStatus ≠ 201 →
        categorize_transaction_ai token m a env = fallback_categorization m)
    ∧ (∀ token m a (env : AIEnv) st out rest, token ≠ "" → env.postErr = false →
        env.postStatus = 201 → env.polls = PollResult.ok st out :: rest →
        st = "succeeded" → (joinOutput out).data.contains '|' = false →
        categorize_transaction_ai token m a env = fallback_categorization m)
    ∧ (∀ token m a (env : AIEnv), token ≠ "" → env.postErr = false → env.postStatus = 201 →
        (∀ st out, PollResult.ok st out ∈ env.polls → st ≠ "succeeded") →
        categorize_transaction_ai token m a env = fallback_categorization m)
    ∧ (∀ token m a (env : AIEnv) rest, token ≠ "" → env.postErr = false →
        env.postStatus = 201 → env.polls = PollResult.err :: rest →
        categorize_transaction_ai token m a env = fallback_categorization m) := by
  refine ⟨?_, ?_, ?_, ?_, ?_, ?_⟩
  · intro m a env
    simp [categorize_transaction_ai]
  · intro token m a env htok herr
    simp [categorize_transaction_ai, htok, herr]
  · intro token m a env htok herr hstat
    simp [categorize_transaction_ai, htok, herr, hstat]
  · intro token m a env st out rest htok herr hstat hpolls hst hno
    subst hst
    have hno' : ¬('|' ∈ (joinOutput out).data) := by simpa using hno
    have htake : env.polls.take 10 = PollResult.ok "succeeded" out :: rest.take 9 := by
      rw [hpolls]; exact List.take_succ_cons
    simp [categorize_transaction_ai, htok, herr, hstat, htake, runPolls, hno']
  · intro token m a env htok herr hstat hall
    have hr : runPolls (env.polls.take 10) = none :=
      runPolls_none_of_no_success (fun st out hm => hall st out (List.mem_of_mem_take hm))
    simp [categorize_transaction_ai, htok, herr, hstat, hr]
  · intro token m a env rest htok herr hstat hpolls
    have htake : env.polls.take 10 = PollResult.err :: rest.take 9 := by
      rw [hpolls]; exact List.take_succ_cons
    simp [categorize_transaction_ai, htok, herr, hstat, htake, runPolls]

/-- C6 witness: each failure mode exercised at a concrete input. -/
theorem C6_witness :
    categorize_transaction_ai "" "SWIGGY" decZero
        { postErr := false, postStatus := 0, polls := [] } =
      fallback_categorization "SWIGGY"
    ∧ categorize_transaction_ai "tok" "SWIGGY" decZero
        { postErr := true, postStatus := 0, polls := [] } =
      fallback_categorization "SWIGGY"
    ∧ categorize_transaction_ai "tok" "SWIGGY" decZero
        { postErr := false, postStatus := 400, polls := [] } =
      fallback_categorization "SWIGGY"
    ∧ categorize_transaction_ai "tok" "SWIGGY" decZero
        { postErr := false, postStatus := 201,
          polls := [.ok "succeeded" (.str "no delimiter")] } =
      fallback_categorization "SWIGGY"
    ∧ categorize_transaction_ai "tok" "SWIGGY" decZero
        { postErr := false, postStatus := 201,
          polls := [.ok "failed" (.str "x"), .ok "pending" (.str "y")] } =
      fallback_categorization "SWIGGY"
    ∧ categorize_transaction_ai "tok" "SWIGGY" decZero
        { postErr := false, postStatus := 201, polls := [.err] } =
      fallback_categorization "SWIGGY" := by
  refine ⟨C6_ai_failure_fallback.1 "SWIGGY" decZero _,
          C6_ai_failure_fallback.2.1 "tok" "SWIGGY" decZero _ (by decide) rfl,
          C6_ai_failure_fallback.2.2.1 "tok" "SWIGGY" decZero _ (by decide) rfl (by decide),
          C6_ai_failure_fallback.2.2.2.1 "tok" "SWIGGY" decZero _ "succeeded"
            (.str "no delimiter") [] (by decide) rfl rfl rfl rfl (by decide),
          C6_ai_failure_fallback.2.2.2.2.1 "tok" "SWIGGY" decZero _ (by decide) rfl rfl ?_,
          C6_ai_failure_fallback.2.2.2.2.2 "tok" "SWIGGY" decZero _ [] (by decide) rfl rfl rfl⟩
  intro st out hm
  simp only [List.mem_cons, List.not_mem_nil, or_false, PollResult.ok.injEq] at hm
  rcases hm with ⟨h, -⟩ | ⟨h, -⟩ <;> subst h <;> decide

/-- C7: `parse_date` tries the five formats in the fixed source order
(`'%b %d, %Y, %H:%M'`, `'%d-%m-%Y'`, `'%Y-%m-%d'`, `'%d/%m/%Y'`,
`'%m/%d/%Y'`), returns the first successful parse, and when every format
fails — in particular on the empty string — returns the caller-observed
current timestamp; the embedding is total, so no input raises. -/
theorem C7_date_format_order :
    (∀ now s d, strptimeF fmtMonD s = some d → parse_date now s = d)
    ∧ (∀ now s d, strptimeF fmtMonD s = none → strptimeF fmtDMY s = some d →
        parse_date now s = d)
    ∧ (∀ now s d, strptimeF fmtMonD s = none → strptimeF fmtDMY s = none →
        strptimeF fmtYMD s = some d → parse_date now s = d)
    ∧ (∀ now s d, strptimeF fmtMonD s = none → strptimeF fmtDMY s = none →
        strptimeF fmtYMD s = none → strptimeF fmtDMYslash s = some d → parse_date now s = d)
    ∧ (∀ now s d, strptimeF fmtMonD s = none → strptimeF fmtDMY s = none →
        strptimeF fmtYMD s = none → strptimeF fmtDMYslash s = none →
        strptimeF fmtMDYslash s = some d → parse_date now s = d)
    ∧ (∀ now s, strptimeF fmtMonD s = none → strptimeF fmtDMY s = none →
        strptimeF fmtYMD s = none → strptimeF fmtDMYslash s = none →
        strptimeF fmtMDYslash s = none → parse_date now s = now)
    ∧ (∀ now, parse_date now "" = now) := by
  refine ⟨?_, ?_, ?_, ?_, ?_, ?_, ?_⟩
  · intro now s d h1
    simp [parse_date, formats, tryFormats, h1]
  · intro now s d h1 h2
    simp [parse_date, formats, tryFormats, h1, h2]
  · intro now s d h1 h2 h3
    simp [parse_date, formats, tryFormats, h1, h2, h3]
  · intro now s d h1 h2 h3 h4
    simp [parse_date, formats, tryFormats, h1, h2, h3, h4]
  · intro now s d h1 h2 h3 h4 h5
    simp [parse_date, formats, tryFormats, h1, h2, h3, h4, h5]
  · intro now s h1 h2 h3 h4 h5
    simp [parse_date, formats, tryFormats, h1, h2, h3, h4, h5]
  · intro now
    rfl

/-- C7 witness: `"21-06-2025"` fails the first format and is parsed by the
second; a garbage string and the empty string fall back to `now`. -/
theorem C7_witness :
    parse_date demoNow "21-06-2025" =
      { year := 2025, month := 6, day := 21, hour := 0, minute := 0 }
    ∧ parse_date demoNow "not a date" = demoNow
    ∧ parse_date demoNow "" = demoNow :=
  ⟨C7_date_format_order.2.1 demoNow "21-06-2025" _ (by decide) (by decide),
   C7_date_format_order.2.2.2.2.2.1 demoNow "not a date"
     (by decide) (by decide) (by decide) (by decide) (by decide),
   C7_date_format_order.2.2.2.2.2.2 demoNow⟩

/-- C8: every sender address stored in the registry resolves, through
`identify_bank`'s fixed chain of case-insensitive substring tests, to the
bank key owning that address's `BankProfile`; a sender containing none of
the eight known substrings resolves to nothing, and the parser then returns
`none` for any body of that email without raising. -/
theorem C8_bank_lookup :
    (identify_bank "donotreply.sbiatm@alerts.sbi.co.in" = some "sbi"
      ∧ bankPatternsGet "sbi" = some sbiProfile
      ∧ "donotreply.sbiatm@alerts.sbi.co.in" ∈ sbiProfile.sender)
    ∧ (identify_bank "alerts@hdfcbank.net" = some "hdfc"
      ∧ bankPatternsGet "hdfc" = some hdfcProfile
      ∧ "alerts@hdfcbank.net" ∈ hdfcProfile.sender)
    ∧ (identify_bank "alert@icicibank.com" = some "icici"
      ∧ bankPatternsGet "icici" = some iciciProfile
      ∧ "alert@icicibank.com" ∈ iciciProfile.sender)
    ∧ (identify_bank "credit_cards@icicibank.com" = some "icici"
      ∧ "credit_cards@icicibank.com" ∈ iciciProfile.sender)
    ∧ (∀ sender,
        containsSubstr (pyLower sender) "sbi" = false →
        containsSubstr (pyLower sender) "hdfc" = false →
        containsSubstr (pyLower sender) "icici" = false →
        containsSubstr (pyLower sender) "axis" = false →
        containsSubstr (pyLower sender) "kotak" = false →
        containsSubstr (pyLower sender) "idfc" = false →
        containsSubstr (pyLower sender) "yes" = false →
        containsSubstr (pyLower sender) "indus" = false →
          identify_bank sender = none
          ∧ ∀ now content, parse_transaction_email now content sender = none) := by
  refine ⟨⟨by decide, rfl, by decide⟩, ⟨by decide, rfl, by decide⟩,
          ⟨by decide, rfl, by decide⟩, ⟨by decide, by decide⟩, ?_⟩
  intro sender h1 h2 h3 h4 h5 h6 h7 h8
  have hid : identify_bank sender = none := by
    simp [identify_bank, h1, h2, h3, h4, h5, h6, h7, h8]
  refine ⟨hid, ?_⟩
  intro now content
  simp [parse_transaction_email, hid]

/-- C8 witness: a sender containing none of the known substrings is
rejected by the lookup and the parser. -/
theorem C8_witness :
    identify_bank "foo@example.com" = none
    ∧ parse_transaction_email demoNow "Amount (INR) 5" "foo@example.com" = none :=
  ⟨(C8_bank_lookup.2.2.2.2 "foo@example.com" (by decide) (by decide) (by decide) (by decide)
      (by decide) (by decide) (by decide) (by decide)).1,
   (C8_bank_lookup.2.2.2.2 "foo@example.com" (by decide) (by decide) (by decide) (by decide)
      (by decide) (by decide) (by decide) (by decide)).2 demoNow "Amount (INR) 5"⟩

/-- C9: every transaction in the list assembled by the fetch loop has a
positive amount — a parsed record reaches the categorization call (and the
output list) only after passing the `transaction['amount'] > 0` guard, so
records with amount ≤ 0 are dropped before the Categorizer is invoked. -/
theorem C9_positive_amounts (token : String) (now : PyDateTime)
    (emails : List ((String × String) × AIEnv)) (t : Transaction)
    (ht : t ∈ processEmails token now emails) : 0 < t.amount.toRat := by
  induction emails with
  | nil => simp [processEmails] at ht
  | cons e rest ih =>
      obtain ⟨⟨body, sender⟩, env⟩ := e
      simp only [processEmails] at ht
      cases hp : parse_transaction_email now body sender with
      | none => simp only [hp] at ht; exact ih ht
      | some tr =>
          simp only [hp] at ht
          by_cases hpos : 0 < tr.amount.num
          · rw [if_pos hpos] at ht
            rcases List.mem_cons.1 ht with h | h
            · subst h; exact DecValue.toRat_pos hpos
            · exact ih h
          · rw [if_neg hpos] at ht; exact ih ht

/-- The transaction assembled from the concrete one-email batch used to
witness C9. -/
def demoTx : Transaction :=
  { amount := { num := 5, scale := 0 }, merchant := "Unknown", date := demoNow,
    card_last4 := "", bank := "SBI", raw_email := "Amount (INR) 5",
    category := "Shopping", subcategory := "General" }

/-- C9 witness: a one-email batch producing one transaction. -/
theorem C9_witness : 0 < demoTx.amount.toRat :=
  C9_positive_amounts "" demoNow
    [(("Amount (INR) 5", "donotreply.sbiatm@alerts.sbi.co.in"),
      { postErr := false, postStatus := 0, polls := [] })] demoTx (by decide)

/-- C10: a sender whose lowercase form contains one of the five substrings
"axis", "kotak", "idfc", "yes", "indus" but none of the earlier-tested
"sbi", "hdfc", "icici" is mapped by `identify_bank` to a bank key with no
`BANK_PATTERNS` entry, and `parse_transaction_email` then returns `none`
for every body (`patterns.get('amount_pattern', '')` yields the empty
pattern, whose `group(1)` raises, caught at the per-email boundary), so
emails from these five banks never produce a record. -/
theorem C10_patternless_banks (sender : String)
    (h1 : containsSubstr (pyLower sender) "sbi" = false)
    (h2 : containsSubstr (pyLower sender) "hdfc" = false)
    (h3 : containsSubstr (pyLower sender) "icici" = false)
    (h4 : containsSubstr (pyLower sender) "axis" = true
        ∨ containsSubstr (pyLower sender) "kotak" = true
        ∨ containsSubstr (pyLower sender) "idfc" = true
        ∨ containsSubstr (pyLower sender) "yes" = true
        ∨ containsSubstr (pyLower sender) "indus" = true) :
    identify_bank sender ≠ none
    ∧ (∀ k, identify_bank sender = some k → bankPatternsGet k = none)
    ∧ (∀ now content, parse_transaction_email now content sender = none) := by
  have hid : ∃ k, identify_bank sender = some k ∧ bankPatternsGet k = none := by
    by_cases ha : containsSubstr (pyLower sender) "axis" = true
    · exact ⟨"axis", by simp [identify_bank, h1, h2, h3, ha], rfl⟩
    · by_cases hk : containsSubstr (pyLower sender) "kotak" = true
      · exact ⟨"kotak", by simp [identify_bank, h1, h2, h3, ha, hk], rfl⟩
      · by_cases hi : containsSubstr (pyLower sender) "idfc" = true
        · exact ⟨"idfc", by simp [identify_bank, h1, h2, h3, ha, hk, hi], rfl⟩
        · by_cases hy : containsSubstr (pyLower sender) "yes" = true
          · exact ⟨"yes", by simp [identify_bank, h1, h2, h3, ha, hk, hi, hy], rfl⟩
          · have hn : containsSubstr (pyLower sender) "indus" = true := by
              rcases h4 with h | h | h | h | h <;> simp_all
            exact ⟨"indus", by simp [identify_bank, h1, h2, h3, ha, hk, hi, hy, hn], rfl⟩
  obtain ⟨k, hk, hnone⟩ := hid
  refine ⟨by rw [hk]; exact Option.noConfusion, ?_, ?_⟩
  · intro k' hk'
    rw [hk] at hk'
    cases hk'
    exact hnone
  · intro now content
    simp [parse_transaction_email, hk, hnone]

/-- C10 witness: the axis sender address searched for by the Gmail query is
recognized as a bank yet yields no record for any body. -/
theorem C10_witness :
    identify_bank "alerts@axisbank.com" ≠ none
    ∧ parse_transaction_email demoNow "Rs. 500 at AMAZON on 21-06-2025"
        "alerts@axisbank.com" = none :=
  ⟨(C10_patternless_banks "alerts@axisbank.com" (by decide) (by decide) (by decide)
      (Or.inl (by decide))).1,
   (C10_patternless_banks "alerts@axisbank.com" (by decide) (by decide) (by decide)
      (Or.inl (by decide))).2.2 demoNow "Rs. 500 at AMAZON on 21-06-2025"⟩

